import Mathlib

/-!
# Verification of the Kommo-Back funnel-metrics and insight engine

Shallow embedding of the marketing analytics core
(`src/core/metrics.py` and `src/core/marketing_analytics.py`).

Modelling conventions:
* A pandas `DataFrame` of lead rows is a `List Lead`; each row carries the
  columns the engine reads, with pandas nulls (`NaN`/`NaT`) as `Option.none`.
  The engine's `'col' in df.columns` guards are modelled as always true:
  the Lead Dataset View (spec §3/§6) defines all these columns.
* Timestamps are integers (`Int`); only ordering comparisons matter.
* Python floats are modelled as exact rationals (`ℚ`); the claims under
  verification only involve values that floats represent exactly.
* Boolean-mask aggregation (`mask.sum()`) is `List.countP`.
-/

namespace Kommo

/-- Sentinel that UTM normalization writes into missing attribution values
(`'(não rastreado)'` in `MarketingAnalyzer._normalize_utm_columns`). -/
def naoRastreado : String := "(não rastreado)"

/-- `MarketingAnalyzer.DESQUALIFICADO_STATUS`. -/
def DESQUALIFICADO_STATUS : String := "Desqualificados"

/-- One lead row, with the columns read by the analytics core.
`utm_*` values are `Option String` (pandas `NaN` is `none`); timestamp
columns are `Option Int`; `status` is a free-form optional string. -/
structure Lead where
  utm_campaign : Option String := none
  utm_source : Option String := none
  utm_medium : Option String := none
  criado_em : Option Int := none
  data_demo : Option Int := none
  data_noshow : Option Int := none
  data_venda : Option Int := none
  status : Option String := none
deriving Repr, DecidableEq

/-- A lead collection (one pandas DataFrame of lead rows). -/
abbrev DataFrame := List Lead

/-- The window predicate the counters build by `mask &= (col >= ini) & (col <= fim)`:
applied only when both bounds are given, and then as a closed interval. -/
def inWindow (t : Option Int) (dataInicio dataFim : Option Int) : Bool :=
  match dataInicio, dataFim with
  | some i, some f =>
      match t with
      | some v => decide (i ≤ v) && decide (v ≤ f)
      | none => false
  | _, _ => true

/-- Fixed status list hard-coded in `calcular_demos_realizadas`
(`src/core/metrics.py` line 55). -/
def demosStatusList : List String :=
  ["5 - Demonstração realizada", "6 - Lead quente", "Venda ganha"]

/-- `calcular_demos_realizadas(df, data_inicio, data_fim)` from
`src/core/metrics.py`: base mask `data_demo.notna()`, optionally windowed on
`data_demo`, then `(status == 'Desqualificados' ∧ data_noshow.isna()) ∨
status ∈ demosStatusList`. -/
def calcular_demos_realizadas (df : DataFrame)
    (dataInicio dataFim : Option Int) : Nat :=
  match df with
  | [] => 0
  | _ :: _ =>
    df.countP fun l =>
      (l.data_demo.isSome && inWindow l.data_demo dataInicio dataFim) &&
        ((decide (l.status = some DESQUALIFICADO_STATUS) &&
            l.data_noshow.isNone) ||
          decide (∃ s ∈ demosStatusList, l.status = some s))

/-- `calcular_noshows(df, data_inicio, data_fim)` from `src/core/metrics.py`. -/
def calcular_noshows (df : DataFrame)
    (dataInicio dataFim : Option Int) : Nat :=
  match df with
  | [] => 0
  | _ :: _ =>
    df.countP fun l =>
      l.data_noshow.isSome && inWindow l.data_noshow dataInicio dataFim

/-- `calcular_vendas(df, data_inicio, data_fim)` from `src/core/metrics.py`. -/
def calcular_vendas (df : DataFrame)
    (dataInicio dataFim : Option Int) : Nat :=
  match df with
  | [] => 0
  | _ :: _ =>
    df.countP fun l =>
      l.data_venda.isSome && inWindow l.data_venda dataInicio dataFim

/-- `utils.formatters.safe_divide` (default 0): 0 when the denominator is 0. -/
def safe_divide (numerator denominator : ℚ) : ℚ :=
  if denominator = 0 then 0 else numerator / denominator

/-- Result record of `calcular_metricas_periodo`. -/
structure MetricasPeriodo where
  total_leads : Nat
  demos_agendadas : Nat
  demos_realizadas : Nat
  noshows : Nat
  vendas : Nat
  taxa_conversao : ℚ
  taxa_noshow : ℚ
deriving Repr, DecidableEq

/-- `calcular_metricas_periodo(df, data_inicio, data_fim)` from
`src/core/metrics.py`: created/scheduled counted inline with
`col.notna() & (col >= ini) & (col <= fim)`, the other three counters
delegated, rates via `safe_divide`. -/
def calcular_metricas_periodo (df : DataFrame)
    (dataInicio dataFim : Int) : MetricasPeriodo :=
  match df with
  | [] =>
    { total_leads := 0, demos_agendadas := 0, demos_realizadas := 0
      noshows := 0, vendas := 0, taxa_conversao := 0, taxa_noshow := 0 }
  | _ :: _ =>
    let total_leads := df.countP fun l =>
      l.criado_em.isSome && inWindow l.criado_em (some dataInicio) (some dataFim)
    let demos_agendadas := df.countP fun l =>
      l.data_demo.isSome && inWindow l.data_demo (some dataInicio) (some dataFim)
    let demos_realizadas :=
      calcular_demos_realizadas df (some dataInicio) (some dataFim)
    let noshows := calcular_noshows df (some dataInicio) (some dataFim)
    let vendas := calcular_vendas df (some dataInicio) (some dataFim)
    { total_leads := total_leads
      demos_agendadas := demos_agendadas
      demos_realizadas := demos_realizadas
      noshows := noshows
      vendas := vendas
      taxa_conversao := safe_divide (vendas : ℚ) (total_leads : ℚ) * 100
      taxa_noshow := safe_divide (noshows : ℚ) (demos_agendadas : ℚ) * 100 }

/-! ## `src/core/marketing_analytics.py`: data model -/

/-- `UTMDimension` enum (`utm_campaign` / `utm_source` / `utm_medium`). -/
inductive UTMDimension where
  | campaign
  | source
  | medium
deriving Repr, DecidableEq

/-- The column of this lead selected by a UTM dimension. -/
def Lead.utmVal (l : Lead) : UTMDimension → Option String
  | .campaign => l.utm_campaign
  | .source => l.utm_source
  | .medium => l.utm_medium

/-- `CampaignMetrics` dataclass: counters for one attribution group. The
`name` field holds the group key, which is an `Option String` column value
(always `some _` after UTM normalization). -/
structure CampaignMetrics where
  name : Option String
  total_leads : Nat := 0
  demos_agendadas : Nat := 0
  demos_realizadas : Nat := 0
  desqualificados : Nat := 0
  vendas : Nat := 0
  noshows : Nat := 0
deriving Repr, DecidableEq

/-- `CampaignMetrics.taxa_agendamento`. -/
def CampaignMetrics.taxa_agendamento (m : CampaignMetrics) : ℚ :=
  if m.total_leads > 0 then (m.demos_agendadas : ℚ) / (m.total_leads : ℚ) * 100 else 0

/-- `CampaignMetrics.taxa_realizacao`. -/
def CampaignMetrics.taxa_realizacao (m : CampaignMetrics) : ℚ :=
  if m.demos_agendadas > 0 then (m.demos_realizadas : ℚ) / (m.demos_agendadas : ℚ) * 100 else 0

/-- `CampaignMetrics.taxa_desqualificacao`. -/
def CampaignMetrics.taxa_desqualificacao (m : CampaignMetrics) : ℚ :=
  if m.demos_realizadas > 0 then (m.desqualificados : ℚ) / (m.demos_realizadas : ℚ) * 100 else 0

/-- `CampaignMetrics.taxa_conversao`. -/
def CampaignMetrics.taxa_conversao (m : CampaignMetrics) : ℚ :=
  if m.demos_realizadas > 0 then (m.vendas : ℚ) / (m.demos_realizadas : ℚ) * 100 else 0

/-- `CampaignMetrics.taxa_noshow`. -/
def CampaignMetrics.taxa_noshow (m : CampaignMetrics) : ℚ :=
  if m.demos_agendadas > 0 then (m.noshows : ℚ) / (m.demos_agendadas : ℚ) * 100 else 0

/-- `CampaignMetrics.taxa_aproveitamento` (integer subtraction in the source
is over Python ints, hence the subtraction is taken in `ℚ`). -/
def CampaignMetrics.taxa_aproveitamento (m : CampaignMetrics) : ℚ :=
  if m.demos_realizadas > 0 then
    ((m.demos_realizadas : ℚ) - (m.desqualificados : ℚ)) / (m.demos_realizadas : ℚ) * 100
  else 0

/-- `CampaignMetrics.eficiencia_funil`. -/
def CampaignMetrics.eficiencia_funil (m : CampaignMetrics) : ℚ :=
  if m.total_leads > 0 then (m.vendas : ℚ) / (m.total_leads : ℚ) * 100 else 0

/-- `PeriodComparison` dataclass. -/
structure PeriodComparison where
  metric_name : String
  current_value : ℚ
  previous_value : ℚ
deriving Repr, DecidableEq

/-- `PeriodComparison.absolute_change`. -/
def PeriodComparison.absolute_change (c : PeriodComparison) : ℚ :=
  c.current_value - c.previous_value

/-- `PeriodComparison.percentage_change`: 100 when previous is 0 and current
positive, 0 when both are 0, otherwise the relative change. -/
def PeriodComparison.percentage_change (c : PeriodComparison) : ℚ :=
  if c.previous_value = 0 then (if c.current_value > 0 then 100 else 0)
  else (c.current_value - c.previous_value) / c.previous_value * 100

/-- `PeriodComparison.trend`: three-way classification with a ±5% deadband. -/
def PeriodComparison.trend (c : PeriodComparison) : String :=
  if c.percentage_change > 5 then "up"
  else if c.percentage_change < -5 then "down"
  else "stable"

/-- `InsightType` enum. -/
inductive InsightType where
  | positive
  | warning
  | critical
  | info
  | opportunity
deriving Repr, DecidableEq

/-- `MarketingInsight` dataclass. The presentation-only string fields
(`description`, `metric_label`, `recommendation`) carry no logic and are
not modelled; `campaign` holds the group key of the referenced group
(`none` for dataset-wide insights). -/
structure MarketingInsight where
  type : InsightType
  title : String
  metric_value : Option ℚ := none
  campaign : Option String := none
  priority : Nat := 1
deriving Repr, DecidableEq

/-! ## `MarketingAnalyzer`: construction and UTM normalization

Python string primitives (`str.strip`, `str.lower`, `in`) are modelled
directly over the character list of a `String`, whitespace being the ASCII
whitespace characters (the strings the engine manipulates are the UTM
values and fixed labels, none of which involve exotic whitespace or
uppercase non-ASCII letters). -/

/-- `str.strip()`: drop leading and trailing whitespace. -/
def pyStrip (s : String) : String :=
  ⟨((s.data.dropWhile Char.isWhitespace).reverse.dropWhile
      Char.isWhitespace).reverse⟩

/-- `str.lower()` on the ASCII range. -/
def pyLower (s : String) : String :=
  ⟨s.data.map fun c => if 'A' ≤ c ∧ c ≤ 'Z' then Char.toLower c else c⟩

/-- Whether `pat` occurs at the head of `l`. -/
def headMatches : List Char → List Char → Bool
  | [], _ => true
  | _ :: _, [] => false
  | p :: ps, c :: cs => p = c && headMatches ps cs

/-- Whether `pat` occurs as a contiguous run of `l`. -/
def containsRun (pat : List Char) : List Char → Bool
  | [] => headMatches pat []
  | c :: cs => headMatches pat (c :: cs) || containsRun pat cs

/-- Python's `pat in s` substring test. -/
def pyContains (s pat : String) : Bool := containsRun pat.data s.data

/-- One UTM cell under `_normalize_utm_columns`:
`fillna('(não rastreado)')`, then `replace('', '(não rastreado)')`, then
`str.strip()` (modelled by `String.trim`). -/
def normalizeUTMValue (v : Option String) : Option String :=
  let v := match v with
    | none => some naoRastreado
    | some s => some s
  let v := match v with
    | some s => if s = "" then some naoRastreado else some s
    | none => none
  match v with
  | some s => some (pyStrip s)
  | none => none

/-- `_normalize_utm_columns` applied to one row (all three UTM columns). -/
def Lead.normalizeUTM (l : Lead) : Lead :=
  { l with
    utm_campaign := normalizeUTMValue l.utm_campaign
    utm_source := normalizeUTMValue l.utm_source
    utm_medium := normalizeUTMValue l.utm_medium }

/-- `MarketingAnalyzer` state after `__init__`: the (copied, normalized)
current frame, the optional (copied, normalized) previous frame, and the
configured demo-completed status labels. -/
structure MarketingAnalyzer where
  df : DataFrame
  df_anterior : Option DataFrame
  demo_completed_statuses : List String
deriving Repr, DecidableEq

/-- `MarketingAnalyzer.__init__`: an empty current frame becomes a fresh
empty frame; an absent or empty previous frame becomes `None`; both kept
frames are normalized in place (on the analyzer's own copies). -/
def mkMarketingAnalyzer (df_leads : DataFrame)
    (df_leads_anterior : Option DataFrame)
    (demo_completed_statuses : List String) : MarketingAnalyzer :=
  { df := (if df_leads = [] then [] else df_leads).map Lead.normalizeUTM
    df_anterior :=
      match df_leads_anterior with
      | some l => if l = [] then none else some (l.map Lead.normalizeUTM)
      | none => none
    demo_completed_statuses := demo_completed_statuses }

/-! ## Grouping, first-occurrence dedup and stable sorting -/

/-- `pandas.unique`: distinct column values in order of first appearance. -/
def uniqueFirst {α : Type} [DecidableEq α] (l : List α) : List α :=
  l.foldl (fun acc x => if x ∈ acc then acc else acc ++ [x]) []

/-- One step of a stable insertion sort: `x` is placed before the first
element `y` with `le x y`; on ties (`le` both ways) the earlier element
stays first. -/
def insertBy {α : Type} (le : α → α → Bool) (x : α) : List α → List α
  | [] => [x]
  | y :: ys => if le x y then x :: y :: ys else y :: insertBy le x ys

/-- Stable sort by `le` (extensionally the stable Timsort behind Python's
`list.sort`): elements comparing equal keep their original order. -/
def stableSortBy {α : Type} (le : α → α → Bool) (l : List α) : List α :=
  l.foldr (insertBy le) []

/-! ## `MarketingAnalyzer.get_campaign_metrics` -/

/-- The `demos_realizadas_mask` of `get_campaign_metrics`
(`src/core/marketing_analytics.py` lines 268–275): status in the configured
completed set, OR disqualified with a demo-scheduled timestamp and no
no-show timestamp.  Note the first branch does not consult `data_demo`. -/
def demosRealizadasMask (statuses : List String) (l : Lead) : Bool :=
  decide (∃ s ∈ statuses, l.status = some s) ||
    (decide (l.status = some DESQUALIFICADO_STATUS) &&
      l.data_demo.isSome && l.data_noshow.isNone)

/-- The `CampaignMetrics` built for one group inside the
`get_campaign_metrics` loop.  `demos_realizadas` stays 0 when the
configured completed-status list is empty (the source guards on
`self.demo_completed_statuses` being truthy). -/
def campaignMetricsOf (statuses : List String) (name : Option String)
    (group : DataFrame) : CampaignMetrics :=
  { name := name
    total_leads := group.length
    demos_agendadas := group.countP fun l => l.data_demo.isSome
    demos_realizadas :=
      if statuses = [] then 0
      else group.countP (demosRealizadasMask statuses)
    desqualificados :=
      group.countP fun l => decide (l.status = some DESQUALIFICADO_STATUS)
    vendas := group.countP fun l => l.data_venda.isSome
    noshows := group.countP fun l => l.data_noshow.isSome }

/-- The pre-sort body of `get_campaign_metrics`: one `CampaignMetrics` per
distinct value of the dimension column (in first-appearance order, as
`pandas.unique` yields), skipping groups smaller than `min_leads`. -/
def campaignGroups (a : MarketingAnalyzer) (dim : UTMDimension)
    (minLeads : Nat) : List CampaignMetrics :=
  (uniqueFirst (a.df.map (·.utmVal dim))).filterMap fun name =>
    let group := a.df.filter fun l => decide (l.utmVal dim = name)
    if group.length < minLeads then none
    else some (campaignMetricsOf a.demo_completed_statuses name group)

/-- `get_campaign_metrics(dimension, min_leads)`: empty frame yields `[]`;
otherwise the per-group metrics, sorted descending by `total_leads`
(`list.sort(key=..., reverse=True)` — a stable sort). -/
def get_campaign_metrics (a : MarketingAnalyzer) (dim : UTMDimension)
    (minLeads : Nat) : List CampaignMetrics :=
  if a.df = [] then []
  else
    stableSortBy (fun x y => decide (y.total_leads ≤ x.total_leads))
      (campaignGroups a dim minLeads)

/-! ## `MarketingAnalyzer.compare_periods` -/

/-- The fixed `metrics_to_compare` table of `compare_periods`:
attribute accessor paired with the display label, in source order. -/
def metricsToCompare : List ((CampaignMetrics → ℚ) × String) :=
  [(fun m => (m.total_leads : ℚ), "Total Leads"),
   (fun m => (m.demos_realizadas : ℚ), "Demos Realizadas"),
   (CampaignMetrics.taxa_desqualificacao, "% Desqualificação"),
   (CampaignMetrics.taxa_conversao, "% Conversão"),
   (CampaignMetrics.taxa_noshow, "% No-show"),
   (fun m => (m.vendas : ℚ), "Vendas")]

/-- The six-entry comparison list built for one campaign key from its
optional current and previous metrics (`getattr(curr, attr, 0) if curr
else 0`). -/
def comparisonRow (curr prev : Option CampaignMetrics) :
    List PeriodComparison :=
  metricsToCompare.map fun acc =>
    { metric_name := acc.2
      current_value := match curr with | some m => acc.1 m | none => 0
      previous_value := match prev with | some m => acc.1 m | none => 0 }

/-- `compare_periods(dimension)`: empty when no previous frame; otherwise,
for every campaign key in the union of the two periods' group lists
(both computed with `min_leads = 1`, the previous period through a fresh
analyzer over the previous frame), the fixed six-entry comparison list.
The source stores the result in a dict keyed by campaign; the key order of
the `set` union is not significant and is modelled by first-appearance
order over current then previous keys. -/
def compare_periods (a : MarketingAnalyzer) (dim : UTMDimension) :
    List (Option String × List PeriodComparison) :=
  match a.df_anterior with
  | none => []
  | some prevDf =>
    if prevDf = [] then []
    else
      let current := get_campaign_metrics a dim 1
      let analyzerAnterior :=
        mkMarketingAnalyzer prevDf none a.demo_completed_statuses
      let previous := get_campaign_metrics analyzerAnterior dim 1
      let allCampaigns :=
        uniqueFirst (current.map (·.name) ++ previous.map (·.name))
      allCampaigns.map fun c =>
        (c, comparisonRow (current.find? fun m => decide (m.name = c))
              (previous.find? fun m => decide (m.name = c)))

/-! ## `MarketingAnalyzer.generate_insights` -/

/-- `THRESHOLD_DESQUALIFICACAO_ALTA` (%). -/
def THRESHOLD_DESQUALIFICACAO_ALTA : ℚ := 40

/-- `THRESHOLD_DESQUALIFICACAO_CRITICA` (%). -/
def THRESHOLD_DESQUALIFICACAO_CRITICA : ℚ := 60

/-- `THRESHOLD_NOSHOW_ALTO` (%). -/
def THRESHOLD_NOSHOW_ALTO : ℚ := 30

/-- `THRESHOLD_CONVERSAO_BAIXA` (%). -/
def THRESHOLD_CONVERSAO_BAIXA : ℚ := 10

/-- `MIN_LEADS_ANALISE`. -/
def MIN_LEADS_ANALISE : Nat := 5

/-- Python's `max(xs, key=k)`: the first element attaining the maximal key
(later elements replace the running maximum only when strictly greater). -/
def maxByFirst {α : Type} (key : α → ℚ) : List α → Option α
  | [] => none
  | x :: xs => some (xs.foldl (fun acc y => if key y > key acc then y else acc) x)

/-- Rule 6's untracked-group test: the lowercased group name contains
`'(não rastreado)'` or `'não informado'` as a substring (`m.name.lower()`
with Python's `in`). -/
def isUntrackedName (name : Option String) : Bool :=
  match name with
  | some s =>
      pyContains (pyLower s) naoRastreado ||
        pyContains (pyLower s) "não informado"
  | none => false

/-- Rule 7 of `generate_insights` (lines 517–546): for every comparison
entry, a Critical "Queda em Vendas" when the sales percentage change is
strictly below −20 with previous sales at least 3, and a Warning
"Aumento em Desqualificação" when the disqualification-rate absolute
change strictly exceeds 15 points with the current rate at least 30. -/
def comparisonInsights
    (comps : List (Option String × List PeriodComparison)) :
    List MarketingInsight :=
  comps.flatMap fun p =>
    p.2.flatMap fun comp =>
      (if comp.metric_name = "Vendas" ∧ comp.percentage_change < -20 ∧
          comp.previous_value ≥ 3 then
        [{ type := .critical, title := "Queda em Vendas"
           metric_value := some comp.percentage_change
           campaign := p.1, priority := 1 }]
      else []) ++
      (if comp.metric_name = "% Desqualificação" ∧ comp.absolute_change > 15 ∧
          comp.current_value ≥ 30 then
        [{ type := .warning, title := "Aumento em Desqualificação"
           metric_value := some comp.absolute_change
           campaign := p.1, priority := 2 }]
      else [])

/-- Rule 1 of `generate_insights`: the top-volume group (the head of the
ranked list) always yields one Positive insight. -/
def ruleMaiorVolume (ml : List CampaignMetrics) : List MarketingInsight :=
  match ml with
  | [] => []
  | bestVolume :: _ =>
      [{ type := .positive, title := "Maior Volume de Leads"
         metric_value := some (bestVolume.total_leads : ℚ)
         campaign := bestVolume.name, priority := 2 }]

/-- Rule 2: best conversion rate among groups with at least one sale. -/
def ruleMelhorConversao (ml : List CampaignMetrics) : List MarketingInsight :=
  match maxByFirst CampaignMetrics.taxa_conversao
      (ml.filter fun m => decide (m.vendas > 0)) with
  | some m =>
      [{ type := .positive, title := "Melhor Taxa de Conversão"
         metric_value := some m.taxa_conversao
         campaign := m.name, priority := 1 }]
  | none => []

/-- Rule 3: groups at or above the high disqualification threshold, capped
at 3; Critical (priority 1) at or above the critical threshold, otherwise
Warning (priority 2). -/
def ruleAltaDesqualificacao (ml : List CampaignMetrics) :
    List MarketingInsight :=
  ((ml.filter fun m =>
      decide (m.taxa_desqualificacao ≥ THRESHOLD_DESQUALIFICACAO_ALTA)).take
        3).map fun m =>
    if m.taxa_desqualificacao ≥ THRESHOLD_DESQUALIFICACAO_CRITICA then
      { type := .critical, title := "Alta Taxa de Desqualificação"
        metric_value := some m.taxa_desqualificacao
        campaign := m.name, priority := 1 }
    else
      { type := .warning, title := "Alta Taxa de Desqualificação"
        metric_value := some m.taxa_desqualificacao
        campaign := m.name, priority := 2 }

/-- Rule 4: high no-show groups with at least 5 scheduled demos, capped at 2. -/
def ruleAltoNoshow (ml : List CampaignMetrics) : List MarketingInsight :=
  ((ml.filter fun m =>
      decide (m.taxa_noshow ≥ THRESHOLD_NOSHOW_ALTO ∧
        m.demos_agendadas ≥ 5)).take 2).map fun m =>
    { type := .warning, title := "Alta Taxa de No-show"
      metric_value := some m.taxa_noshow
      campaign := m.name, priority := 2 }

/-- Rule 5: low conversion despite good volume and at least one sale,
capped at 2. -/
def ruleBaixaConversao (ml : List CampaignMetrics) : List MarketingInsight :=
  ((ml.filter fun m =>
      decide (m.taxa_conversao < THRESHOLD_CONVERSAO_BAIXA ∧
        m.demos_realizadas ≥ 10 ∧ m.vendas ≥ 1)).take 2).map fun m =>
    { type := .opportunity, title := "Oportunidade de Melhoria"
      metric_value := some m.taxa_conversao
      campaign := m.name, priority := 2 }

/-- The untracked share computed by rule 6: untracked leads over the sum
of `total_leads` of the min-leads-filtered `metrics_list` (source line
423), as a percentage, 0 when the denominator is 0. -/
def pctNaoRastreado (ml : List CampaignMetrics) : ℚ :=
  if (ml.map (·.total_leads)).sum > 0 then
    (((ml.filter fun m => isUntrackedName m.name).map
        (·.total_leads)).sum : ℚ) /
      ((ml.map (·.total_leads)).sum : ℚ) * 100
  else 0

/-- Rule 6: untracked-traffic warning.  The threshold on the untracked
share is the literal 10 (source line 506). -/
def ruleNaoRastreado (ml : List CampaignMetrics) : List MarketingInsight :=
  if (ml.filter fun m => isUntrackedName m.name) = [] then []
  else
    if pctNaoRastreado ml > 10 then
      [{ type := .warning, title := "Rastreamento Incompleto"
         metric_value := some (pctNaoRastreado ml), priority := 2 }]
    else []

/-- Rule 7 with its gate: comparison insights only when a previous frame
is present and nonempty. -/
def ruleComparacao (a : MarketingAnalyzer) (dim : UTMDimension) :
    List MarketingInsight :=
  match a.df_anterior with
  | some prevDf =>
      if prevDf = [] then []
      else comparisonInsights (compare_periods a dim)
  | none => []

/-- Rule 8: best funnel efficiency, when positive. -/
def ruleMelhorEficiencia (ml : List CampaignMetrics) :
    List MarketingInsight :=
  match maxByFirst CampaignMetrics.eficiencia_funil ml with
  | some bestEfficiency =>
      if bestEfficiency.eficiencia_funil > 0 then
        [{ type := .positive, title := "Melhor Eficiência de Funil"
           metric_value := some bestEfficiency.eficiencia_funil
           campaign := bestEfficiency.name, priority := 2 }]
      else []
  | none => []

/-- Rule 9: groups with completed demos but no sales (one aggregate
insight). -/
def ruleSemVendas (ml : List CampaignMetrics) : List MarketingInsight :=
  if (ml.filter fun m =>
      decide (m.vendas = 0 ∧ m.demos_realizadas ≥ 5)) = [] then []
  else
    [{ type := .warning, title := "Campanhas Sem Conversão"
       metric_value :=
         some (((ml.filter fun m =>
           decide (m.vendas = 0 ∧ m.demos_realizadas ≥ 5)).length : ℚ))
       priority := 2 }]

/-- The rule pipeline of `generate_insights` applied to an already-computed
`metrics_list`: the insufficient-data early return when the list is empty,
otherwise the nine rule blocks appended in source order. -/
def insightCandidates (a : MarketingAnalyzer) (dim : UTMDimension)
    (ml : List CampaignMetrics) : List MarketingInsight :=
  if ml = [] then
    [{ type := .info, title := "Dados Insuficientes", priority := 3 }]
  else
    ruleMaiorVolume ml ++ ruleMelhorConversao ml ++
      ruleAltaDesqualificacao ml ++ ruleAltoNoshow ml ++
      ruleBaixaConversao ml ++ ruleNaoRastreado ml ++
      ruleComparacao a dim ++ ruleMelhorEficiencia ml ++
      ruleSemVendas ml

/-- The full candidate list built by `generate_insights(dimension,
max_insights)` before the final priority sort and truncation: the rule
pipeline over the `min_leads = MIN_LEADS_ANALISE` aggregation. -/
def generateInsightsAll (a : MarketingAnalyzer) (dim : UTMDimension) :
    List MarketingInsight :=
  insightCandidates a dim (get_campaign_metrics a dim MIN_LEADS_ANALISE)

/-- `generate_insights(dimension, max_insights)`: the candidate list,
stably sorted by ascending priority, truncated to `max_insights`. -/
def generate_insights (a : MarketingAnalyzer) (dim : UTMDimension)
    (maxInsights : Nat) : List MarketingInsight :=
  (stableSortBy (fun x y => decide (x.priority ≤ y.priority))
    (generateInsightsAll a dim)).take maxInsights

/-! ## Heap model for the constructor's copy discipline

`MarketingAnalyzer.__init__` copies the caller's dataframes before
`_normalize_utm_columns` mutates them in place.  To state that the caller's
frames are unmodified we make the aliasing explicit: a store of dataframe
cells, references as indices, and the constructor as a store transformer
that allocates fresh cells for `self.df` / `self.df_anterior` and writes
only to those. -/

/-- A heap of dataframe cells; a reference is an index into it. -/
abbrev Store := List DataFrame

/-- Dereference. -/
def Store.read (s : Store) (r : Nat) : Option DataFrame := s[r]?

/-- Allocate a fresh cell (`pd.DataFrame()` / `.copy()` results). -/
def Store.alloc (s : Store) (d : DataFrame) : Store × Nat :=
  (s ++ [d], s.length)

/-- In-place update of one cell (`df[col] = ...`). -/
def Store.write (s : Store) (r : Nat) (d : DataFrame) : Store := s.set r d

/-- One iteration of the `_normalize_utm_columns` loop on the frame in cell
`r`: skipped when the frame is missing or empty, otherwise the UTM columns
are rewritten in place. -/
def normalizeStore (s : Store) (r : Nat) : Store :=
  match s.read r with
  | some d => if d = [] then s else s.write r (d.map Lead.normalizeUTM)
  | none => s

/-- The references held by an analyzer built through the heap model. -/
structure AnalyzerRefs where
  dfRef : Nat
  dfAnteriorRef : Option Nat
  demo_completed_statuses : List String
deriving Repr, DecidableEq

/-- The `self.df_anterior` assignment of `__init__`:
`df_leads_anterior.copy()` into a fresh cell when present and nonempty,
`None` otherwise. -/
def initSelfAnterior (s : Store) (dfAnteriorRef : Option Nat) :
    Store × Option Nat :=
  match dfAnteriorRef with
  | some r =>
      let d := (s.read r).getD []
      if d = [] then (s, none)
      else ((s.alloc d).1, some (s.alloc d).2)
  | none => (s, none)

/-- `MarketingAnalyzer.__init__` over the heap:
`self.df = df_leads.copy() if not df_leads.empty else pd.DataFrame()`,
`self.df_anterior = df_leads_anterior.copy() if ... else None`, then
`self._normalize_utm_columns()` writing through `self`'s references only. -/
def analyzerInitStore (s : Store) (dfLeadsRef : Nat)
    (dfAnteriorRef : Option Nat) (statuses : List String) :
    Store × AnalyzerRefs :=
  let dfLeads := (s.read dfLeadsRef).getD []
  let p1 := s.alloc (if dfLeads = [] then [] else dfLeads)
  let p2 := initSelfAnterior p1.1 dfAnteriorRef
  let s3 := normalizeStore p2.1 p1.2
  let s4 := match p2.2 with
    | some r => normalizeStore s3 r
    | none => s3
  (s4, ⟨p1.2, p2.2, statuses⟩)

/-! ## Helper lemmas on the grouping and sorting combinators -/

theorem mem_insertBy {α : Type} (le : α → α → Bool) (x a : α) :
    ∀ l : List α, a ∈ insertBy le x l ↔ a = x ∨ a ∈ l := by
  intro l
  induction l with
  | nil => simp [insertBy]
  | cons y ys ih =>
      by_cases h : le x y = true
      · simp [insertBy, h]
      · simp only [insertBy, if_neg h, List.mem_cons, ih]
        tauto

theorem mem_stableSortBy {α : Type} (le : α → α → Bool) (a : α) :
    ∀ l : List α, a ∈ stableSortBy le l ↔ a ∈ l := by
  intro l
  induction l with
  | nil => simp [stableSortBy]
  | cons y ys ih =>
      simp only [stableSortBy, List.foldr_cons, List.mem_cons]
      rw [mem_insertBy]
      simp only [stableSortBy] at ih
      rw [ih]

theorem pairwise_insertBy {α : Type} (le : α → α → Bool)
    (htot : ∀ x y, le x y = true ∨ le y x = true)
    (htrans : ∀ x y z, le x y = true → le y z = true → le x z = true)
    (x : α) :
    ∀ l : List α, l.Pairwise (fun a b => le a b = true) →
      (insertBy le x l).Pairwise (fun a b => le a b = true) := by
  intro l
  induction l with
  | nil => intro _; simp [insertBy]
  | cons y ys ih =>
      intro h
      rcases List.pairwise_cons.mp h with ⟨hy, hys⟩
      by_cases hxy : le x y = true
      · simp only [insertBy, if_pos hxy]
        refine List.pairwise_cons.mpr ⟨?_, h⟩
        intro b hb
        rcases List.mem_cons.mp hb with rfl | hb
        · exact hxy
        · exact htrans x y b hxy (hy b hb)
      · have hyx : le y x = true := (htot x y).resolve_left hxy
        simp only [insertBy, if_neg hxy]
        refine List.pairwise_cons.mpr ⟨?_, ih hys⟩
        intro b hb
        rcases (mem_insertBy le x b ys).mp hb with rfl | hb
        · exact hyx
        · exact hy b hb

theorem pairwise_stableSortBy {α : Type} (le : α → α → Bool)
    (htot : ∀ x y, le x y = true ∨ le y x = true)
    (htrans : ∀ x y z, le x y = true → le y z = true → le x z = true) :
    ∀ l : List α,
      (stableSortBy le l).Pairwise (fun a b => le a b = true) := by
  intro l
  induction l with
  | nil => simp [stableSortBy]
  | cons y ys ih =>
      exact pairwise_insertBy le htot htrans y _ ih

theorem filter_insertBy {α : Type} (le : α → α → Bool) (p : α → Bool)
    (x : α) (hc : ∀ y, p x = true → p y = true → le x y = true) :
    ∀ l : List α,
      (insertBy le x l).filter p = (if p x then [x] else []) ++ l.filter p := by
  intro l
  induction l with
  | nil =>
      by_cases hpx : p x = true <;> simp [insertBy, List.filter_cons, hpx]
  | cons y ys ih =>
      by_cases hxy : le x y = true
      · simp only [insertBy, if_pos hxy, List.filter_cons]
        by_cases hpx : p x = true <;> by_cases hpy : p y = true <;>
          simp [hpx, hpy]
      · simp only [insertBy, if_neg hxy, List.filter_cons]
        by_cases hpy : p y = true
        · have hpx : ¬ p x = true := fun hpx => hxy (hc y hpx hpy)
          simp [hpy, hpx, ih]
        · simp [hpy, ih]

theorem filter_stableSortBy {α : Type} (le : α → α → Bool) (p : α → Bool)
    (hc : ∀ x y, p x = true → p y = true → le x y = true) :
    ∀ l : List α, (stableSortBy le l).filter p = l.filter p := by
  intro l
  induction l with
  | nil => simp [stableSortBy]
  | cons y ys ih =>
      simp only [stableSortBy, List.foldr_cons]
      rw [filter_insertBy le p y (fun z => hc y z)]
      simp only [stableSortBy] at ih
      rw [ih, List.filter_cons]
      by_cases hpy : p y = true <;> simp [hpy]

theorem mem_uniqueFirst_aux {α : Type} [DecidableEq α] (a : α) :
    ∀ (l acc : List α),
      (a ∈ l.foldl
        (fun acc x => if x ∈ acc then acc else acc ++ [x]) acc) ↔
      a ∈ acc ∨ a ∈ l := by
  intro l
  induction l with
  | nil => intro acc; simp
  | cons x xs ih =>
      intro acc
      simp only [List.foldl_cons, List.mem_cons]
      rw [ih]
      by_cases hx : x ∈ acc
      · simp only [if_pos hx]
        constructor
        · rintro (h | h)
          · exact Or.inl h
          · exact Or.inr (Or.inr h)
        · rintro (h | rfl | h)
          · exact Or.inl h
          · exact Or.inl hx
          · exact Or.inr h
      · simp only [if_neg hx, List.mem_append, List.mem_singleton]
        tauto

theorem mem_uniqueFirst {α : Type} [DecidableEq α] (a : α) (l : List α) :
    a ∈ uniqueFirst l ↔ a ∈ l := by
  unfold uniqueFirst
  rw [mem_uniqueFirst_aux]
  simp

/-- Membership in a group list: every record comes from one group of the
frame, built by `campaignMetricsOf`. -/
theorem mem_campaignGroups {a : MarketingAnalyzer} {dim : UTMDimension}
    {minLeads : Nat} {m : CampaignMetrics}
    (h : m ∈ campaignGroups a dim minLeads) :
    ∃ name, m = campaignMetricsOf a.demo_completed_statuses name
      (a.df.filter fun l => decide (l.utmVal dim = name)) := by
  rcases List.mem_filterMap.mp h with ⟨name, _, hif⟩
  by_cases hlen :
      (a.df.filter fun l => decide (l.utmVal dim = name)).length < minLeads
  · simp [hlen] at hif
  · refine ⟨name, ?_⟩
    simp only [if_neg hlen, Option.some.injEq] at hif
    exact hif.symm

/-- Membership in the ranked output is membership in the group list. -/
theorem mem_get_campaign_metrics {a : MarketingAnalyzer}
    {dim : UTMDimension} {minLeads : Nat} {m : CampaignMetrics}
    (h : m ∈ get_campaign_metrics a dim minLeads) :
    m ∈ campaignGroups a dim minLeads := by
  unfold get_campaign_metrics at h
  by_cases hdf : a.df = []
  · simp [hdf] at h
  · rw [if_neg hdf] at h
    exact (mem_stableSortBy _ m _).mp h

/-! ## C1: containment `desqualificados ≤ demos_realizadas` -/

/-- C1 counterexample data: a single lead with status `Desqualificados`
and no demo-scheduled timestamp. -/
def c1Lead : Lead :=
  { utm_campaign := some "a", status := some "Desqualificados" }

/-- C1 counterexample analyzer (nonempty completed-status configuration). -/
def c1Analyzer : MarketingAnalyzer :=
  mkMarketingAnalyzer [c1Lead] none ["Venda ganha"]

/-- C1: the claimed invariant `desqualificados ≤ demos_realizadas` is false
on the code: a lead with status `Desqualificados` and no `data_demo` is
counted as disqualified but not as a completed demo, so the single group
produced by `get_campaign_metrics` has `desqualificados = 1` and
`demos_realizadas = 0`. -/
theorem C1_containment_counterexample :
    (get_campaign_metrics c1Analyzer .campaign 1).map
      (fun m => (m.name, m.desqualificados, m.demos_realizadas)) =
      [(some "a", 1, 0)] ∧ ¬ (1 : Nat) ≤ 0 := by
  constructor
  · decide
  · decide

/-- C1 amended: the containment `desqualificados ≤ demos_realizadas` holds
for every group produced by `get_campaign_metrics` provided the
completed-status configuration is nonempty and every lead with status
`Desqualificados` has a demo-scheduled timestamp and no no-show
timestamp. -/
theorem C1_containment_amended (a : MarketingAnalyzer)
    (dim : UTMDimension) (minLeads : Nat)
    (hS : a.demo_completed_statuses ≠ [])
    (hD : ∀ l ∈ a.df, l.status = some DESQUALIFICADO_STATUS →
      l.data_demo.isSome = true ∧ l.data_noshow = none) :
    ∀ m ∈ get_campaign_metrics a dim minLeads,
      m.desqualificados ≤ m.demos_realizadas := by
  intro m hm
  rcases mem_campaignGroups (mem_get_campaign_metrics hm) with ⟨name, rfl⟩
  unfold campaignMetricsOf
  simp only [if_neg hS]
  refine List.countP_mono_left ?_
  intro l hl hstat
  have hdf : l ∈ a.df := (List.mem_filter.mp hl).1
  have hst : l.status = some DESQUALIFICADO_STATUS := of_decide_eq_true hstat
  rcases hD l hdf hst with ⟨hdemo, hnoshow⟩
  unfold demosRealizadasMask
  rw [Bool.or_eq_true]
  right
  rw [Bool.and_eq_true, Bool.and_eq_true]
  exact ⟨⟨decide_eq_true hst, hdemo⟩, by rw [hnoshow]; rfl⟩

/-- C1 amended, witnessed at a concrete analyzer: one disqualified lead
with demo scheduled and no no-show. -/
theorem C1_containment_witness :
    ((mkMarketingAnalyzer
        [{ utm_campaign := some "a", status := some "Desqualificados",
           data_demo := some 5 : Lead }] none
        ["Venda ganha"]).demo_completed_statuses ≠ [] ∧
      (∀ l ∈ (mkMarketingAnalyzer
        [{ utm_campaign := some "a", status := some "Desqualificados",
           data_demo := some 5 : Lead }] none
        ["Venda ganha"]).df, l.status = some DESQUALIFICADO_STATUS →
          l.data_demo.isSome = true ∧ l.data_noshow = none)) ∧
    ∀ m ∈ get_campaign_metrics (mkMarketingAnalyzer
        [{ utm_campaign := some "a", status := some "Desqualificados",
           data_demo := some 5 : Lead }] none
        ["Venda ganha"]) .campaign 1,
      m.desqualificados ≤ m.demos_realizadas :=
  ⟨⟨by decide, by decide⟩,
    C1_containment_amended _ .campaign 1 (by decide) (by decide)⟩

/-! ## C2: where the demo-scheduled-presence filter is applied -/

/-- C2 counterexample data: a lead whose status is in the configured
completed set but whose `data_demo` is absent. -/
def c2Lead : Lead := { utm_campaign := some "a", status := some "X" }

/-- C2 counterexample analyzer, configured completed set `["X"]`. -/
def c2Analyzer : MarketingAnalyzer := mkMarketingAnalyzer [c2Lead] none ["X"]

/-- C2: the claim is false for `get_campaign_metrics`: a lead with
status in the completed set and no demo-scheduled timestamp is counted in
`demos_realizadas` (the frame has exactly one lead, and it has
`data_demo = none`), so the presence filter is not applied before the
status-set branch in that call path. -/
theorem C2_demos_derivation_counterexample :
    (get_campaign_metrics c2Analyzer .campaign 1).map
      (fun m => m.demos_realizadas) = [1] ∧
    c2Lead.data_demo = none := by
  constructor
  · decide
  · decide

/-- C2 amended: in `calcular_demos_realizadas` the demo-scheduled-presence
filter (with the window, when given) is applied before both branches —
the count never exceeds the number of leads with `data_demo` present and
in the window; in `get_campaign_metrics` the per-group mask requires
`data_demo` only in the disqualified branch: a lead is counted iff its
status is in the configured set, or it is disqualified with `data_demo`
present and no no-show timestamp. -/
theorem C2_demos_derivation_amended :
    (∀ (df : DataFrame) (di dfim : Option Int),
      calcular_demos_realizadas df di dfim ≤
        df.countP fun l => l.data_demo.isSome && inWindow l.data_demo di dfim) ∧
    (∀ (statuses : List String) (l : Lead),
      demosRealizadasMask statuses l = true ↔
        ((∃ s ∈ statuses, l.status = some s) ∨
          (l.status = some DESQUALIFICADO_STATUS ∧
            l.data_demo.isSome = true ∧ l.data_noshow = none))) := by
  constructor
  · intro df di dfim
    match df with
    | [] => exact Nat.zero_le _
    | x :: xs =>
        refine List.countP_mono_left ?_
        intro l _ hl
        rw [Bool.and_eq_true] at hl
        exact hl.1
  · intro statuses l
    simp [demosRealizadasMask, Bool.or_eq_true, Bool.and_eq_true,
      decide_eq_true_eq, Option.isNone_iff_eq_none, and_assoc]

/-- C2 amended, witnessed: a disqualified lead with `data_demo` absent is
not counted by the windowed counter beyond the demo-present bound, and the
group mask holds for a completed-status lead without `data_demo`. -/
theorem C2_demos_derivation_witness :
    calcular_demos_realizadas [c2Lead] none none ≤
      ([c2Lead] : DataFrame).countP
        (fun l => l.data_demo.isSome && inWindow l.data_demo none none) ∧
    (demosRealizadasMask ["X"] c2Lead = true ↔
      ((∃ s ∈ ["X"], c2Lead.status = some s) ∨
        (c2Lead.status = some DESQUALIFICADO_STATUS ∧
          c2Lead.data_demo.isSome = true ∧ c2Lead.data_noshow = none))) :=
  ⟨C2_demos_derivation_amended.1 [c2Lead] none none,
    C2_demos_derivation_amended.2 ["X"] c2Lead⟩

/-! ## C3: window boundaries of the five counters -/

/-- Per-cell form of the window mask with both bounds given: a closed
interval on the present timestamp. -/
theorem isSome_and_inWindow (t : Option Int) (i f : Int) :
    (t.isSome && inWindow t (some i) (some f)) =
      match t with
      | some v => decide (i ≤ v ∧ v ≤ f)
      | none => false := by
  match t with
  | none => rfl
  | some v =>
      simp only [Option.isSome_some, Bool.true_and, inWindow]
      by_cases h1 : i ≤ v <;> by_cases h2 : v ≤ f <;> simp [h1, h2]

/-- C3 counterexample data: a sale stamped exactly at the end bound. -/
def c3Lead : Lead := { data_venda := some 10 }

/-- C3: the claim's half-open window is false on the code: with window
`[0, 10]` a lead whose `data_venda` equals the end bound 10 is counted
(`calcular_vendas` returns 1), while the claimed half-open count is 0. -/
theorem C3_window_counterexample :
    calcular_vendas [c3Lead] (some 0) (some 10) = 1 ∧
    ([c3Lead] : DataFrame).countP
      (fun l => match l.data_venda with
        | some t => decide (0 ≤ t ∧ t < 10)
        | none => false) = 0 := by
  constructor
  · decide
  · decide

/-- C3 amended: with a `(data_inicio, data_fim)` window supplied, each
windowed counter counts exactly the leads whose named timestamp is present
and lies in the CLOSED interval `[start, end]` (a timestamp equal to the
end bound is counted); `demos completed` additionally applies its
two-branch status predicate. -/
theorem C3_window_amended (df : DataFrame) (i f : Int) :
    calcular_vendas df (some i) (some f) =
      df.countP (fun l => match l.data_venda with
        | some t => decide (i ≤ t ∧ t ≤ f)
        | none => false) ∧
    calcular_noshows df (some i) (some f) =
      df.countP (fun l => match l.data_noshow with
        | some t => decide (i ≤ t ∧ t ≤ f)
        | none => false) ∧
    calcular_demos_realizadas df (some i) (some f) =
      df.countP (fun l =>
        (match l.data_demo with
          | some t => decide (i ≤ t ∧ t ≤ f)
          | none => false) &&
        ((decide (l.status = some DESQUALIFICADO_STATUS) &&
            l.data_noshow.isNone) ||
          decide (∃ s ∈ demosStatusList, l.status = some s))) ∧
    (calcular_metricas_periodo df i f).total_leads =
      df.countP (fun l => match l.criado_em with
        | some t => decide (i ≤ t ∧ t ≤ f)
        | none => false) ∧
    (calcular_metricas_periodo df i f).demos_agendadas =
      df.countP (fun l => match l.data_demo with
        | some t => decide (i ≤ t ∧ t ≤ f)
        | none => false) := by
  match df with
  | [] => refine ⟨rfl, rfl, rfl, rfl, rfl⟩
  | x :: xs =>
      refine ⟨?_, ?_, ?_, ?_, ?_⟩
      · exact List.countP_congr fun l _ => by
          rw [isSome_and_inWindow]
      · exact List.countP_congr fun l _ => by
          rw [isSome_and_inWindow]
      · exact List.countP_congr fun l _ => by
          rw [isSome_and_inWindow]
      · exact List.countP_congr fun l _ => by
          rw [isSome_and_inWindow]
      · exact List.countP_congr fun l _ => by
          rw [isSome_and_inWindow]

/-- C3 amended, witnessed at the boundary lead and window `[0, 10]`. -/
theorem C3_window_witness :
    calcular_vendas [c3Lead] (some 0) (some 10) =
      ([c3Lead] : DataFrame).countP (fun l => match l.data_venda with
        | some t => decide (0 ≤ t ∧ t ≤ 10)
        | none => false) ∧
    calcular_noshows [c3Lead] (some 0) (some 10) =
      ([c3Lead] : DataFrame).countP (fun l => match l.data_noshow with
        | some t => decide (0 ≤ t ∧ t ≤ 10)
        | none => false) :=
  ⟨(C3_window_amended [c3Lead] 0 10).1, (C3_window_amended [c3Lead] 0 10).2.1⟩

/-! ## C9: zero denominators and empty input -/

/-- C9: every derived rate of `CampaignMetrics` is 0 when its denominator
is 0 (the guards replace the division, so no fault and no NaN can arise),
and on an empty lead collection the aggregator returns no groups and
`calcular_metricas_periodo` returns all counters 0 and all rates 0; the
three standalone counters return 0 as well. -/
theorem C9_zero_denominators :
    (∀ m : CampaignMetrics,
      (m.total_leads = 0 →
        m.taxa_agendamento = 0 ∧ m.eficiencia_funil = 0) ∧
      (m.demos_agendadas = 0 →
        m.taxa_realizacao = 0 ∧ m.taxa_noshow = 0) ∧
      (m.demos_realizadas = 0 →
        m.taxa_desqualificacao = 0 ∧ m.taxa_conversao = 0 ∧
          m.taxa_aproveitamento = 0)) ∧
    (∀ (dim : UTMDimension) (minLeads : Nat) (prev : Option DataFrame)
        (statuses : List String),
      get_campaign_metrics (mkMarketingAnalyzer [] prev statuses)
        dim minLeads = []) ∧
    (∀ i f : Int, calcular_metricas_periodo [] i f =
      { total_leads := 0, demos_agendadas := 0, demos_realizadas := 0
        noshows := 0, vendas := 0, taxa_conversao := 0, taxa_noshow := 0 }) ∧
    (∀ di dfim : Option Int,
      calcular_demos_realizadas [] di dfim = 0 ∧
      calcular_noshows [] di dfim = 0 ∧ calcular_vendas [] di dfim = 0) := by
  refine ⟨?_, ?_, ?_, ?_⟩
  · intro m
    refine ⟨?_, ?_, ?_⟩
    · intro h
      constructor <;>
        simp [CampaignMetrics.taxa_agendamento,
          CampaignMetrics.eficiencia_funil, h]
    · intro h
      constructor <;>
        simp [CampaignMetrics.taxa_realizacao, CampaignMetrics.taxa_noshow, h]
    · intro h
      refine ⟨?_, ?_, ?_⟩ <;>
        simp [CampaignMetrics.taxa_desqualificacao,
          CampaignMetrics.taxa_conversao,
          CampaignMetrics.taxa_aproveitamento, h]
  · intro dim minLeads prev statuses
    rfl
  · intro i f
    rfl
  · intro di dfim
    exact ⟨rfl, rfl, rfl⟩

/-- C9 witnessed at a concrete all-zero metrics record. -/
theorem C9_zero_denominators_witness :
    ({ name := some "a" : CampaignMetrics }.taxa_agendamento = 0 ∧
      { name := some "a" : CampaignMetrics }.eficiencia_funil = 0) ∧
    ({ name := some "a" : CampaignMetrics }.taxa_realizacao = 0 ∧
      { name := some "a" : CampaignMetrics }.taxa_noshow = 0) ∧
    ({ name := some "a" : CampaignMetrics }.taxa_desqualificacao = 0 ∧
      { name := some "a" : CampaignMetrics }.taxa_conversao = 0 ∧
      { name := some "a" : CampaignMetrics }.taxa_aproveitamento = 0) :=
  ⟨(C9_zero_denominators.1 { name := some "a" }).1 rfl,
    (C9_zero_denominators.1 { name := some "a" }).2.1 rfl,
    (C9_zero_denominators.1 { name := some "a" }).2.2 rfl⟩

/-! ## C10: the constructor leaves the caller's frames unchanged -/

theorem Store.read_alloc_lt {s : Store} {d : DataFrame} {i : Nat}
    (h : i < s.length) : ((s.alloc d).1).read i = s.read i := by
  simp only [Store.alloc, Store.read]
  rw [List.getElem?_append, if_pos h]

theorem Store.read_write_ne {s : Store} {r : Nat} {d : DataFrame} {i : Nat}
    (h : i ≠ r) : (s.write r d).read i = s.read i := by
  simp only [Store.write, Store.read]
  rw [List.getElem?_set_ne (fun hri => h hri.symm)]

theorem read_normalizeStore_ne {s : Store} {r i : Nat} (h : i ≠ r) :
    (normalizeStore s r).read i = s.read i := by
  unfold normalizeStore
  match hr : s.read r with
  | none => rfl
  | some d =>
      by_cases hd : d = []
      · simp [hd]
      · simp only [if_neg hd]
        exact Store.read_write_ne h

theorem normalizeStore_length (s : Store) (r : Nat) :
    (normalizeStore s r).length = s.length := by
  unfold normalizeStore
  match hr : s.read r with
  | none => rfl
  | some d =>
      by_cases hd : d = []
      · simp [hd]
      · simp [if_neg hd, Store.write]

theorem read_initSelfAnterior {s : Store} {r? : Option Nat} {i : Nat}
    (h : i < s.length) :
    ((initSelfAnterior s r?).1).read i = s.read i := by
  unfold initSelfAnterior
  match r? with
  | none => rfl
  | some r =>
      by_cases hd : (s.read r).getD [] = []
      · simp [hd]
      · simp only [if_neg hd]
        exact Store.read_alloc_lt h

theorem ref_initSelfAnterior {s : Store} {r? : Option Nat} {r' : Nat}
    (h : (initSelfAnterior s r?).2 = some r') : r' = s.length := by
  unfold initSelfAnterior at h
  match r? with
  | none => exact absurd h (by simp)
  | some r =>
      by_cases hd : (s.read r).getD [] = []
      · simp [hd] at h
      · simp only [if_neg hd, Store.alloc, Option.some.injEq] at h
        exact h.symm

theorem length_initSelfAnterior_ge (s : Store) (r? : Option Nat) :
    s.length ≤ ((initSelfAnterior s r?).1).length := by
  unfold initSelfAnterior
  match r? with
  | none => exact Nat.le_refl _
  | some r =>
      by_cases hd : (s.read r).getD [] = []
      · simp [hd]
      · simp [if_neg hd, Store.alloc]

/-- C10: `MarketingAnalyzer.__init__` never mutates the caller's frames:
both frames are `.copy()`-ed into fresh cells (an empty current frame
becomes a fresh empty frame) and the in-place UTM normalization writes
only through the analyzer's own references, so every pre-existing cell of
the store reads the same after construction. -/
theorem C10_init_frames_unchanged (s : Store) (dfLeadsRef : Nat)
    (dfAnteriorRef : Option Nat) (statuses : List String) (i : Nat)
    (h : i < s.length) :
    ((analyzerInitStore s dfLeadsRef dfAnteriorRef statuses).1).read i =
      s.read i := by
  unfold analyzerInitStore
  have hp1ref : (s.alloc (if (s.read dfLeadsRef).getD [] = [] then []
      else (s.read dfLeadsRef).getD [])).2 = s.length := rfl
  have hp1len : (s.alloc (if (s.read dfLeadsRef).getD [] = [] then []
      else (s.read dfLeadsRef).getD [])).1.length = s.length + 1 := by
    simp [Store.alloc]
  set s1 := (s.alloc (if (s.read dfLeadsRef).getD [] = [] then []
    else (s.read dfLeadsRef).getD [])).1 with hs1
  have hread1 : s1.read i = s.read i := Store.read_alloc_lt h
  have hi1 : i < s1.length := by rw [hp1len]; omega
  have hne1 : i ≠ s.length := by omega
  have hread2 : ((initSelfAnterior s1 dfAnteriorRef).1).read i =
      s1.read i := read_initSelfAnterior hi1
  have hread3 :
      (normalizeStore (initSelfAnterior s1 dfAnteriorRef).1 s.length).read i =
        ((initSelfAnterior s1 dfAnteriorRef).1).read i :=
    read_normalizeStore_ne hne1
  match hAnt : (initSelfAnterior s1 dfAnteriorRef).2 with
  | none =>
      simp only [hAnt, hp1ref]
      rw [hread3, hread2, hread1]
  | some r =>
      have hr : r = s1.length := ref_initSelfAnterior hAnt
      have hner : i ≠ r := by
        rw [hr]
        omega
      simp only [hAnt, hp1ref]
      rw [read_normalizeStore_ne hner, hread3, hread2, hread1]

/-- C10 witnessed: a one-cell store holding one raw lead; after
construction (with the same cell passed as both current and previous
frame) the caller's cell still holds the raw, un-normalized lead. -/
theorem C10_init_frames_unchanged_witness :
    0 < ([[{ utm_campaign := some " x " : Lead }]] : Store).length ∧
    ((analyzerInitStore [[{ utm_campaign := some " x " : Lead }]] 0
        (some 0) []).1).read 0 =
      Store.read [[{ utm_campaign := some " x " : Lead }]] 0 :=
  ⟨by decide,
    C10_init_frames_unchanged [[{ utm_campaign := some " x " }]] 0
      (some 0) [] 0 (by decide)⟩

/-! ## C5: default ordering and tie-breaking of the ranked output -/

/-- C5 counterexample data: two one-lead groups, `"b"` appearing first in
the frame. -/
def c5Analyzer : MarketingAnalyzer :=
  mkMarketingAnalyzer
    [{ utm_campaign := some "b" }, { utm_campaign := some "a" }] none []

/-- C5: lexicographic tie-breaking is false on the code: two tied groups
come out in first-appearance order (`"b"` before `"a"`), though `"a"`
precedes `"b"` lexicographically. -/
theorem C5_ordering_counterexample :
    (get_campaign_metrics c5Analyzer .campaign 1).map (·.name) =
      [some "b", some "a"] ∧ "a".data < "b".data := by
  constructor
  · decide
  · decide

/-- C5 amended: the ranked output is sorted descending by `total_leads`,
and ties keep the first-appearance order of the group keys in the frame
(Python's stable sort over the `pandas.unique` enumeration), not
lexicographic order; determinism is immediate since the aggregation is a
pure function of the frame and dimension. -/
theorem C5_ordering_amended (a : MarketingAnalyzer) (dim : UTMDimension)
    (minLeads : Nat) :
    (get_campaign_metrics a dim minLeads).Pairwise
      (fun x y => y.total_leads ≤ x.total_leads) ∧
    ∀ k : Nat,
      (get_campaign_metrics a dim minLeads).filter
          (fun m => decide (m.total_leads = k)) =
        (campaignGroups a dim minLeads).filter
          (fun m => decide (m.total_leads = k)) := by
  unfold get_campaign_metrics
  by_cases hdf : a.df = []
  · rw [if_pos hdf]
    refine ⟨List.Pairwise.nil, ?_⟩
    intro k
    simp [campaignGroups, hdf, uniqueFirst]
  · rw [if_neg hdf]
    constructor
    · have hp := pairwise_stableSortBy
        (fun x y : CampaignMetrics => decide (y.total_leads ≤ x.total_leads))
        (fun x y => by
          rcases Nat.le_total y.total_leads x.total_leads with h | h
          · exact Or.inl (decide_eq_true h)
          · exact Or.inr (decide_eq_true h))
        (fun x y z hxy hyz =>
          decide_eq_true
            (Nat.le_trans (of_decide_eq_true hyz) (of_decide_eq_true hxy)))
        (campaignGroups a dim minLeads)
      exact hp.imp fun h => of_decide_eq_true h
    · intro k
      refine filter_stableSortBy _ _ ?_ _
      intro x y hx hy
      have hxk : x.total_leads = k := of_decide_eq_true hx
      have hyk : y.total_leads = k := of_decide_eq_true hy
      exact decide_eq_true (by omega)

/-- C5 amended, witnessed on the two-group tied dataset: sortedness and
the tie-stability equation at `total_leads = 1`. -/
theorem C5_ordering_witness :
    (get_campaign_metrics c5Analyzer .campaign 1).Pairwise
      (fun x y => y.total_leads ≤ x.total_leads) ∧
    (get_campaign_metrics c5Analyzer .campaign 1).filter
        (fun m => decide (m.total_leads = 1)) =
      (campaignGroups c5Analyzer .campaign 1).filter
        (fun m => decide (m.total_leads = 1)) :=
  ⟨(C5_ordering_amended c5Analyzer .campaign 1).1,
    (C5_ordering_amended c5Analyzer .campaign 1).2 1⟩

/-! ## Helper lemmas on the insight rules -/

theorem mem_ite_singleton {α : Type} {c : Prop} [Decidable c]
    {a b : α} : a ∈ (if c then [b] else []) ↔ c ∧ a = b := by
  by_cases h : c <;> simp [h]

theorem title_ruleMaiorVolume {ml : List CampaignMetrics}
    {i : MarketingInsight} (h : i ∈ ruleMaiorVolume ml) :
    i.title = "Maior Volume de Leads" := by
  match ml with
  | [] => simp [ruleMaiorVolume] at h
  | b :: rest =>
      simp only [ruleMaiorVolume, List.mem_singleton] at h
      rw [h]

theorem title_ruleMelhorConversao {ml : List CampaignMetrics}
    {i : MarketingInsight} (h : i ∈ ruleMelhorConversao ml) :
    i.title = "Melhor Taxa de Conversão" := by
  unfold ruleMelhorConversao at h
  match hm : maxByFirst CampaignMetrics.taxa_conversao
      (ml.filter fun m => decide (m.vendas > 0)) with
  | none => rw [hm] at h; simp at h
  | some m =>
      rw [hm] at h
      simp only [List.mem_singleton] at h
      rw [h]

theorem title_ruleAltaDesqualificacao {ml : List CampaignMetrics}
    {i : MarketingInsight} (h : i ∈ ruleAltaDesqualificacao ml) :
    i.title = "Alta Taxa de Desqualificação" := by
  unfold ruleAltaDesqualificacao at h
  rcases List.mem_map.mp h with ⟨m, _, rfl⟩
  by_cases hc : m.taxa_desqualificacao ≥ THRESHOLD_DESQUALIFICACAO_CRITICA <;>
    simp [hc]

theorem title_ruleAltoNoshow {ml : List CampaignMetrics}
    {i : MarketingInsight} (h : i ∈ ruleAltoNoshow ml) :
    i.title = "Alta Taxa de No-show" := by
  unfold ruleAltoNoshow at h
  rcases List.mem_map.mp h with ⟨m, _, rfl⟩
  rfl

theorem title_ruleBaixaConversao {ml : List CampaignMetrics}
    {i : MarketingInsight} (h : i ∈ ruleBaixaConversao ml) :
    i.title = "Oportunidade de Melhoria" := by
  unfold ruleBaixaConversao at h
  rcases List.mem_map.mp h with ⟨m, _, rfl⟩
  rfl

/-- The untracked-rule output is fully characterized: nonempty exactly when
an untracked-named group exists and the share exceeds 10%, and then it is
one Warning record carrying that share. -/
theorem mem_ruleNaoRastreado {ml : List CampaignMetrics}
    {i : MarketingInsight} :
    i ∈ ruleNaoRastreado ml ↔
      (ml.filter fun m => isUntrackedName m.name) ≠ [] ∧
      pctNaoRastreado ml > 10 ∧
      i = { type := .warning, title := "Rastreamento Incompleto"
            metric_value := some (pctNaoRastreado ml)
            priority := 2 } := by
  unfold ruleNaoRastreado
  by_cases hnt : (ml.filter fun m => isUntrackedName m.name) = []
  · rw [if_pos hnt]
    simp only [List.not_mem_nil, false_iff]
    rintro ⟨hc, -⟩
    exact hc hnt
  · rw [if_neg hnt]
    by_cases hpct : pctNaoRastreado ml > 10
    · rw [if_pos hpct]
      simp only [List.mem_singleton]
      exact ⟨fun h => ⟨hnt, hpct, h⟩, fun h => h.2.2⟩
    · rw [if_neg hpct]
      simp only [List.not_mem_nil, false_iff]
      rintro ⟨-, hp, -⟩
      exact hpct hp

theorem title_ruleNaoRastreado {ml : List CampaignMetrics}
    {i : MarketingInsight} (h : i ∈ ruleNaoRastreado ml) :
    i.title = "Rastreamento Incompleto" := by
  rw [mem_ruleNaoRastreado.mp h |>.2.2]

theorem title_ruleMelhorEficiencia {ml : List CampaignMetrics}
    {i : MarketingInsight} (h : i ∈ ruleMelhorEficiencia ml) :
    i.title = "Melhor Eficiência de Funil" := by
  unfold ruleMelhorEficiencia at h
  split at h
  · split at h
    · simp only [List.mem_singleton] at h
      rw [h]
    · simp at h
  · simp at h

theorem title_ruleSemVendas {ml : List CampaignMetrics}
    {i : MarketingInsight} (h : i ∈ ruleSemVendas ml) :
    i.title = "Campanhas Sem Conversão" := by
  unfold ruleSemVendas at h
  split at h
  · simp at h
  · simp only [List.mem_singleton] at h
    rw [h]

/-- Membership in the comparison-rule output, with the strict thresholds
explicit. -/
theorem mem_comparisonInsights
    {comps : List (Option String × List PeriodComparison)}
    {i : MarketingInsight} :
    i ∈ comparisonInsights comps ↔
      ∃ p ∈ comps, ∃ comp ∈ p.2,
        ((comp.metric_name = "Vendas" ∧ comp.percentage_change < -20 ∧
            comp.previous_value ≥ 3) ∧
          i = { type := .critical, title := "Queda em Vendas"
                metric_value := some comp.percentage_change
                campaign := p.1, priority := 1 }) ∨
        ((comp.metric_name = "% Desqualificação" ∧
            comp.absolute_change > 15 ∧ comp.current_value ≥ 30) ∧
          i = { type := .warning, title := "Aumento em Desqualificação"
                metric_value := some comp.absolute_change
                campaign := p.1, priority := 2 }) := by
  unfold comparisonInsights
  simp only [List.mem_flatMap, List.mem_append, mem_ite_singleton]

theorem title_comparisonInsights
    {comps : List (Option String × List PeriodComparison)}
    {i : MarketingInsight} (h : i ∈ comparisonInsights comps) :
    i.title = "Queda em Vendas" ∨ i.title = "Aumento em Desqualificação" := by
  rcases mem_comparisonInsights.mp h with ⟨p, _, comp, _, hc | hc⟩
  · left; rw [hc.2]
  · right; rw [hc.2]

theorem title_ruleComparacao {a : MarketingAnalyzer} {dim : UTMDimension}
    {i : MarketingInsight} (h : i ∈ ruleComparacao a dim) :
    i.title = "Queda em Vendas" ∨ i.title = "Aumento em Desqualificação" := by
  unfold ruleComparacao at h
  split at h
  · split at h
    · simp at h
    · exact title_comparisonInsights h
  · simp at h

/-- A rule block whose insights all carry title `tX` contributes nothing
to a filter on a different title `t`. -/
theorem filter_title_block {l : List MarketingInsight} {tX t : String}
    (hl : ∀ i ∈ l, i.title = tX) (hne : tX ≠ t) :
    l.filter (fun i => decide (i.title = t)) = [] :=
  List.filter_eq_nil_iff.mpr fun i hi => by
    rw [decide_eq_true_iff, hl i hi]
    exact hne

/-- The comparison block contributes nothing to a filter on a title other
than its two titles. -/
theorem filter_title_ruleComparacao {a : MarketingAnalyzer}
    {dim : UTMDimension} {t : String}
    (h1 : "Queda em Vendas" ≠ t) (h2 : "Aumento em Desqualificação" ≠ t) :
    (ruleComparacao a dim).filter (fun i => decide (i.title = t)) = [] :=
  List.filter_eq_nil_iff.mpr fun i hi => by
    rw [decide_eq_true_iff]
    rcases title_ruleComparacao hi with ht | ht <;> rw [ht]
    · exact h1
    · exact h2

/-! ## C4: the min-leads cut and the totals the engine uses -/

/-- Every emitted group meets the min-leads threshold. -/
theorem total_leads_of_mem_campaignGroups {a : MarketingAnalyzer}
    {dim : UTMDimension} {minLeads : Nat} {m : CampaignMetrics}
    (h : m ∈ campaignGroups a dim minLeads) : minLeads ≤ m.total_leads := by
  rcases List.mem_filterMap.mp h with ⟨name, _, hif⟩
  by_cases hlen :
      (a.df.filter fun l => decide (l.utmVal dim = name)).length < minLeads
  · simp [hlen] at hif
  · simp only [if_neg hlen, Option.some.injEq] at hif
    rw [← hif]
    exact Nat.le_of_not_lt hlen

/-- A lead with no attribution at all (normalized to the untracked
sentinel on all three UTM columns). -/
def blankLead : Lead := {}

/-- C4 counterexample data: 5 untracked leads and 1 lead of campaign
`"beta"` (below the support minimum of 5). -/
def c4Analyzer : MarketingAnalyzer :=
  mkMarketingAnalyzer
    (List.replicate 5 blankLead ++ [{ utm_campaign := some "beta" }]) none []

unseal Rat.mul Rat.inv Rat.add Rat.sub in
/-- C4: the whole-dataset-totals half of the claim is false on the code:
with 5 untracked leads and 1 excluded `"beta"` lead, the untracked-share
insight reports 100% (denominator 5 = sum over qualifying groups), not the
whole-dataset share 500/6 ≈ 83.3%. -/
theorem C4_totals_counterexample :
    ((generate_insights c4Analyzer .campaign 10).filter
        (fun i => decide (i.title = "Rastreamento Incompleto"))).map
      (fun i => i.metric_value) = [some 100] ∧
    (100 : ℚ) ≠ 500 / 6 := by
  constructor
  · decide
  · decide

/-- C4 amended: groups below the caller-supplied minimum are excluded from
the ranked output (every returned group has `total_leads ≥ min_leads`),
and the total the Insight Engine divides by is the sum of `total_leads`
over the qualifying groups only (`pctNaoRastreado` of the filtered list),
so the leads of excluded groups are NOT counted in that denominator. -/
theorem C4_totals_amended :
    (∀ (a : MarketingAnalyzer) (dim : UTMDimension) (minLeads : Nat),
      ∀ m ∈ get_campaign_metrics a dim minLeads,
        minLeads ≤ m.total_leads) ∧
    (∀ (a : MarketingAnalyzer) (dim : UTMDimension),
      ∀ i ∈ generateInsightsAll a dim,
        i.title = "Rastreamento Incompleto" →
          i.metric_value = some (pctNaoRastreado
            (get_campaign_metrics a dim MIN_LEADS_ANALISE))) := by
  constructor
  · intro a dim minLeads m hm
    exact total_leads_of_mem_campaignGroups (mem_get_campaign_metrics hm)
  · intro a dim i hi hT
    unfold generateInsightsAll insightCandidates at hi
    by_cases hml : get_campaign_metrics a dim MIN_LEADS_ANALISE = []
    · rw [if_pos hml] at hi
      simp only [List.mem_singleton] at hi
      rw [hi] at hT
      exact absurd hT (by decide)
    · rw [if_neg hml] at hi
      simp only [List.mem_append] at hi
      rcases hi with
        ((((((((h | h) | h) | h) | h) | h) | h) | h) | h)
      · rw [title_ruleMaiorVolume h] at hT
        exact absurd hT (by decide)
      · rw [title_ruleMelhorConversao h] at hT
        exact absurd hT (by decide)
      · rw [title_ruleAltaDesqualificacao h] at hT
        exact absurd hT (by decide)
      · rw [title_ruleAltoNoshow h] at hT
        exact absurd hT (by decide)
      · rw [title_ruleBaixaConversao h] at hT
        exact absurd hT (by decide)
      · rw [(mem_ruleNaoRastreado.mp h).2.2]
      · rcases title_ruleComparacao h with ht | ht <;> rw [ht] at hT <;>
          exact absurd hT (by decide)
      · rw [title_ruleMelhorEficiencia h] at hT
        exact absurd hT (by decide)
      · rw [title_ruleSemVendas h] at hT
        exact absurd hT (by decide)

unseal Rat.mul Rat.inv Rat.add Rat.sub in
/-- C4 amended, witnessed on the counterexample dataset: the one qualifying
group has 5 ≥ 5 leads, and the untracked insight carries the
qualifying-groups share. -/
theorem C4_totals_witness :
    (∀ m ∈ get_campaign_metrics c4Analyzer .campaign 5,
      5 ≤ m.total_leads) ∧
    (∀ i ∈ generateInsightsAll c4Analyzer .campaign,
      i.title = "Rastreamento Incompleto" →
        i.metric_value = some (pctNaoRastreado
          (get_campaign_metrics c4Analyzer .campaign MIN_LEADS_ANALISE))) :=
  ⟨fun m hm => C4_totals_amended.1 c4Analyzer .campaign 5 m hm,
    fun i hi hT => C4_totals_amended.2 c4Analyzer .campaign i hi hT⟩

/-! ## C7: the untracked-traffic rule -/

/-- A lead attributed to campaign `"alpha"`. -/
def alphaLead : Lead := { utm_campaign := some "alpha" }

/-- C7 counterexample data: 5 untracked leads and 20 of campaign
`"alpha"` — untracked share 20%, between the fixed 10% threshold of the
code and the 30% threshold the claim supposes configurable. -/
def c7Analyzer : MarketingAnalyzer :=
  mkMarketingAnalyzer
    (List.replicate 5 blankLead ++ List.replicate 20 alphaLead) none []

unseal Rat.mul Rat.inv Rat.add Rat.sub in
/-- C7: the claim is false on the code: no configurable untracked-share
threshold exists — the rule compares with the literal 10.  With the
untracked share at 20% (claimed not to fire under a 30% threshold) the
engine emits the Warning anyway, with `metric_value = 20`. -/
theorem C7_untracked_counterexample :
    ((generate_insights c7Analyzer .campaign 10).filter
        (fun i => decide (i.title = "Rastreamento Incompleto"))).map
      (fun i => (i.type, i.metric_value)) = [(.warning, some 20)] ∧
    ¬ ((20 : ℚ) > 30) := by
  constructor
  · decide
  · decide

/-- C7 scenario data: 9 untracked leads and 6 of campaign `"alpha"` —
60% untracked. -/
def c7ScenarioAnalyzer : MarketingAnalyzer :=
  mkMarketingAnalyzer
    (List.replicate 9 blankLead ++ List.replicate 6 alphaLead) none []

unseal Rat.mul Rat.inv Rat.add Rat.sub in
/-- C7 amended: the untracked rule fires (producing exactly one Warning)
iff some qualifying group has an untracked name and the untracked share of
the qualifying groups' total exceeds the FIXED 10% threshold; across the
whole candidate list the untracked-titled insights are exactly that
rule's output.  Scenario: with 60% of leads untracked the engine emits
exactly one `Rastreamento Incompleto` insight — a Warning with
`metric_value = 60`. -/
theorem C7_untracked_amended :
    (∀ (a : MarketingAnalyzer) (dim : UTMDimension),
      (generateInsightsAll a dim).filter
          (fun i => decide (i.title = "Rastreamento Incompleto")) =
        if get_campaign_metrics a dim MIN_LEADS_ANALISE = [] then []
        else ruleNaoRastreado
          (get_campaign_metrics a dim MIN_LEADS_ANALISE)) ∧
    (∀ ml : List CampaignMetrics, (ruleNaoRastreado ml).length ≤ 1) ∧
    (∀ ml : List CampaignMetrics,
      ruleNaoRastreado ml ≠ [] ↔
        ((ml.filter fun m => isUntrackedName m.name) ≠ [] ∧
          pctNaoRastreado ml > 10)) ∧
    ((generate_insights c7ScenarioAnalyzer .campaign 10).filter
        (fun i => decide (i.title = "Rastreamento Incompleto"))).map
      (fun i => (i.type, i.metric_value)) = [(.warning, some 60)] := by
  refine ⟨?_, ?_, ?_, by decide⟩
  · intro a dim
    unfold generateInsightsAll insightCandidates
    by_cases hml : get_campaign_metrics a dim MIN_LEADS_ANALISE = []
    · rw [if_pos hml, if_pos hml]
      decide
    · rw [if_neg hml, if_neg hml]
      rw [List.filter_append, List.filter_append, List.filter_append,
        List.filter_append, List.filter_append, List.filter_append,
        List.filter_append, List.filter_append]
      rw [filter_title_block (fun i h => title_ruleMaiorVolume h) (by decide),
        filter_title_block (fun i h => title_ruleMelhorConversao h)
          (by decide),
        filter_title_block (fun i h => title_ruleAltaDesqualificacao h)
          (by decide),
        filter_title_block (fun i h => title_ruleAltoNoshow h) (by decide),
        filter_title_block (fun i h => title_ruleBaixaConversao h)
          (by decide),
        filter_title_ruleComparacao (by decide) (by decide),
        filter_title_block (fun i h => title_ruleMelhorEficiencia h)
          (by decide),
        filter_title_block (fun i h => title_ruleSemVendas h) (by decide)]
      rw [List.filter_eq_self.mpr (fun i hi => by
        rw [decide_eq_true_iff, title_ruleNaoRastreado hi])]
      simp
  · intro ml
    unfold ruleNaoRastreado
    split
    · simp
    · split
      · simp
      · simp
  · intro ml
    unfold ruleNaoRastreado
    by_cases hnt : (ml.filter fun m => isUntrackedName m.name) = []
    · rw [if_pos hnt]
      simp [hnt]
    · rw [if_neg hnt]
      by_cases hpct : pctNaoRastreado ml > 10
      · rw [if_pos hpct]
        simp [hnt, hpct]
      · rw [if_neg hpct]
        simp [hnt, hpct]

/-- C7 amended, witnessed on the 60%-untracked scenario: the
untracked-titled candidates are exactly the untracked rule's output. -/
theorem C7_untracked_witness :
    (generateInsightsAll c7ScenarioAnalyzer .campaign).filter
        (fun i => decide (i.title = "Rastreamento Incompleto")) =
      if get_campaign_metrics c7ScenarioAnalyzer .campaign
          MIN_LEADS_ANALISE = [] then []
      else ruleNaoRastreado
        (get_campaign_metrics c7ScenarioAnalyzer .campaign
          MIN_LEADS_ANALISE) :=
  C7_untracked_amended.1 c7ScenarioAnalyzer .campaign

/-! ## C6: period-over-period regression rules -/

/-- Candidate insights carrying a regression title can only come from the
comparison rule: every other block has a different, fixed title. -/
theorem mem_ruleComparacao_of_title {a : MarketingAnalyzer}
    {dim : UTMDimension} {ml : List CampaignMetrics} {i : MarketingInsight}
    (hml : ml ≠ []) (hi : i ∈ insightCandidates a dim ml)
    (hT : i.title = "Queda em Vendas" ∨
      i.title = "Aumento em Desqualificação") :
    i ∈ ruleComparacao a dim := by
  unfold insightCandidates at hi
  rw [if_neg hml] at hi
  simp only [List.mem_append] at hi
  rcases hi with ((((((((h | h) | h) | h) | h) | h) | h) | h) | h)
  · rcases hT with ht | ht <;> rw [title_ruleMaiorVolume h] at ht <;>
      exact absurd ht (by decide)
  · rcases hT with ht | ht <;> rw [title_ruleMelhorConversao h] at ht <;>
      exact absurd ht (by decide)
  · rcases hT with ht | ht <;>
      rw [title_ruleAltaDesqualificacao h] at ht <;>
      exact absurd ht (by decide)
  · rcases hT with ht | ht <;> rw [title_ruleAltoNoshow h] at ht <;>
      exact absurd ht (by decide)
  · rcases hT with ht | ht <;> rw [title_ruleBaixaConversao h] at ht <;>
      exact absurd ht (by decide)
  · rcases hT with ht | ht <;> rw [title_ruleNaoRastreado h] at ht <;>
      exact absurd ht (by decide)
  · exact h
  · rcases hT with ht | ht <;> rw [title_ruleMelhorEficiencia h] at ht <;>
      exact absurd ht (by decide)
  · rcases hT with ht | ht <;> rw [title_ruleSemVendas h] at ht <;>
      exact absurd ht (by decide)

theorem ruleComparacao_eq_none {a : MarketingAnalyzer} {dim : UTMDimension}
    (hA : a.df_anterior = none) : ruleComparacao a dim = [] := by
  unfold ruleComparacao
  rw [hA]

theorem ruleComparacao_eq_empty {a : MarketingAnalyzer}
    {dim : UTMDimension} (hA : a.df_anterior = some []) :
    ruleComparacao a dim = [] := by
  unfold ruleComparacao
  rw [hA]
  simp

theorem ruleComparacao_eq_of_some {a : MarketingAnalyzer}
    {dim : UTMDimension} {p : DataFrame} (hA : a.df_anterior = some p)
    (hp : p ≠ []) :
    ruleComparacao a dim = comparisonInsights (compare_periods a dim) := by
  unfold ruleComparacao
  rw [hA]
  simp [hp]

/-- C6 counterexample data (sales boundary): campaign `"a"` with 4 sales
of 5 leads now, 5 sales of 5 leads in the previous period — a drop of
exactly 20%. -/
def aLeadSold : Lead := { utm_campaign := some "a", data_venda := some 1 }

/-- A lead of campaign `"a"` with no sale. -/
def aLeadNoSale : Lead := { utm_campaign := some "a" }

/-- Analyzer for the sales boundary: current 4/5 sold, previous 5/5 sold. -/
def c6SalesAnalyzer : MarketingAnalyzer :=
  mkMarketingAnalyzer (List.replicate 4 aLeadSold ++ [aLeadNoSale])
    (some (List.replicate 5 aLeadSold)) []

/-- A lead of campaign `"a"` with a completed-demo status. -/
def aLeadDemoX : Lead := { utm_campaign := some "a", status := some "X" }

/-- A disqualified lead of campaign `"a"` with a demo and no no-show. -/
def aLeadDesq : Lead :=
  { utm_campaign := some "a", status := some "Desqualificados"
    data_demo := some 1 }

/-- Analyzer for the disqualification boundary: current rate 40% (2 of 5),
previous 25% (1 of 4) — a rise of exactly 15 points with current ≥ 30. -/
def c6DesqAnalyzer : MarketingAnalyzer :=
  mkMarketingAnalyzer
    (List.replicate 3 aLeadDemoX ++ List.replicate 2 aLeadDesq)
    (some (List.replicate 3 aLeadDemoX ++ [aLeadDesq])) ["X"]

unseal Rat.mul Rat.inv Rat.add Rat.sub in
/-- C6: both thresholds of the claim are non-strict but the code compares
strictly: a sales drop of exactly 20% (previous sales 5 ≥ 3) emits no
`Queda em Vendas` insight, and a disqualification-rate rise of exactly 15
points (current rate 40 ≥ 30) emits no `Aumento em Desqualificação`
insight. -/
theorem C6_regression_counterexample :
    ((∃ p ∈ compare_periods c6SalesAnalyzer .campaign, ∃ comp ∈ p.2,
        comp.metric_name = "Vendas" ∧ comp.percentage_change ≤ -20 ∧
          comp.previous_value ≥ 3) ∧
      ∀ i ∈ generate_insights c6SalesAnalyzer .campaign 10,
        i.title ≠ "Queda em Vendas") ∧
    ((∃ p ∈ compare_periods c6DesqAnalyzer .campaign, ∃ comp ∈ p.2,
        comp.metric_name = "% Desqualificação" ∧
          comp.absolute_change ≥ 15 ∧ comp.current_value ≥ 30) ∧
      ∀ i ∈ generate_insights c6DesqAnalyzer .campaign 10,
        i.title ≠ "Aumento em Desqualificação") := by
  exact ⟨⟨by decide, by decide⟩, ⟨by decide, by decide⟩⟩

/-- C6 amended: the regression rules run iff a previous-period frame is
supplied (non-`None`, nonempty) AND at least one group meets the support
minimum; the emitted regression insights are exactly those of the
comparison rule, which fires a Critical `Queda em Vendas` per comparison
entry with sales percentage change STRICTLY below −20 and previous value
at least 3, and a Warning `Aumento em Desqualificação` per entry with
disqualification-rate absolute change STRICTLY above 15 points and current
value at least 30. -/
theorem C6_regression_amended (a : MarketingAnalyzer) (dim : UTMDimension) :
    ((a.df_anterior = none ∨ a.df_anterior = some [] ∨
        get_campaign_metrics a dim MIN_LEADS_ANALISE = []) →
      ∀ i ∈ generateInsightsAll a dim,
        i.title ≠ "Queda em Vendas" ∧
          i.title ≠ "Aumento em Desqualificação") ∧
    (∀ p : DataFrame, a.df_anterior = some p → p ≠ [] →
      get_campaign_metrics a dim MIN_LEADS_ANALISE ≠ [] →
      ∀ i : MarketingInsight,
        (i ∈ generateInsightsAll a dim ∧
            (i.title = "Queda em Vendas" ∨
              i.title = "Aumento em Desqualificação")) ↔
          i ∈ comparisonInsights (compare_periods a dim)) ∧
    (∀ i : MarketingInsight,
      i ∈ comparisonInsights (compare_periods a dim) ↔
        ∃ p ∈ compare_periods a dim, ∃ comp ∈ p.2,
          ((comp.metric_name = "Vendas" ∧ comp.percentage_change < -20 ∧
              comp.previous_value ≥ 3) ∧
            i = { type := .critical, title := "Queda em Vendas"
                  metric_value := some comp.percentage_change
                  campaign := p.1, priority := 1 }) ∨
          ((comp.metric_name = "% Desqualificação" ∧
              comp.absolute_change > 15 ∧ comp.current_value ≥ 30) ∧
            i = { type := .warning, title := "Aumento em Desqualificação"
                  metric_value := some comp.absolute_change
                  campaign := p.1, priority := 2 })) := by
  refine ⟨?_, ?_, fun i => mem_comparisonInsights⟩
  · intro hgate i hi
    have main : ¬ (i.title = "Queda em Vendas" ∨
        i.title = "Aumento em Desqualificação") := by
      intro hT
      unfold generateInsightsAll at hi
      by_cases hml : get_campaign_metrics a dim MIN_LEADS_ANALISE = []
      · unfold insightCandidates at hi
        rw [if_pos hml] at hi
        simp only [List.mem_singleton] at hi
        rcases hT with ht | ht <;> rw [hi] at ht <;>
          exact absurd ht (by decide)
      · have h7 := mem_ruleComparacao_of_title hml hi hT
        rcases hgate with hA | hA | hA
        · rw [ruleComparacao_eq_none hA] at h7
          simp at h7
        · rw [ruleComparacao_eq_empty hA] at h7
          simp at h7
        · exact hml hA
    exact ⟨fun h => main (Or.inl h), fun h => main (Or.inr h)⟩
  · intro p hA hp hml i
    constructor
    · rintro ⟨hi, hT⟩
      have h7 := mem_ruleComparacao_of_title hml hi hT
      rw [ruleComparacao_eq_of_some hA hp] at h7
      exact h7
    · intro hc
      refine ⟨?_, title_comparisonInsights hc⟩
      unfold generateInsightsAll insightCandidates
      rw [if_neg hml]
      simp only [List.mem_append]
      exact Or.inl (Or.inl (Or.inr
        ((ruleComparacao_eq_of_some hA hp).symm ▸ hc)))

unseal Rat.mul Rat.inv Rat.add Rat.sub in
/-- C6 amended, witnessed: a genuine regression (sales −50%, previous 4)
with a previous frame supplied and one qualifying group — the regression
insights in the candidate list are exactly the comparison-rule output. -/
theorem C6_regression_witness :
    ∀ i : MarketingInsight,
      (i ∈ generateInsightsAll
          (mkMarketingAnalyzer
            (List.replicate 2 aLeadSold ++ List.replicate 3 aLeadNoSale)
            (some (List.replicate 4 aLeadSold)) []) .campaign ∧
          (i.title = "Queda em Vendas" ∨
            i.title = "Aumento em Desqualificação")) ↔
        i ∈ comparisonInsights (compare_periods
          (mkMarketingAnalyzer
            (List.replicate 2 aLeadSold ++ List.replicate 3 aLeadNoSale)
            (some (List.replicate 4 aLeadSold)) []) .campaign) :=
  (C6_regression_amended
      (mkMarketingAnalyzer
        (List.replicate 2 aLeadSold ++ List.replicate 3 aLeadNoSale)
        (some (List.replicate 4 aLeadSold)) []) .campaign).2.1
    ((List.replicate 4 aLeadSold).map Lead.normalizeUTM)
    (by decide) (by decide) (by decide)

/-! ## C8: the period comparator -/

/-- C8 scenario data: campaign `"b"` sold 5 of 5 leads last period and has
no leads this period; the current frame holds one unrelated `"a"` lead. -/
def c8PrevLead : Lead := { utm_campaign := some "b", data_venda := some 1 }

/-- Analyzer for the C8 scenario. -/
def c8Analyzer : MarketingAnalyzer :=
  mkMarketingAnalyzer [{ utm_campaign := some "a" }]
    (some (List.replicate 5 c8PrevLead)) []

unseal Rat.mul Rat.inv Rat.add Rat.sub in
/-- C8: with a previous frame supplied, `compare_periods` has an entry for
exactly the campaign keys present in either period's aggregation
(`min_leads = 1`, union not intersection); every entry carries the fixed
ordered six-metric comparison list, and a key absent from one period gets
value 0 on that side for all six entries.  Scenario: campaign `"b"` with
5 previous sales and 0 current leads yields a `Vendas` comparison with
`current_value = 0`, `previous_value = 5`, `percentage_change = −100` and
trend `"down"`. -/
theorem C8_compare_periods (a : MarketingAnalyzer) (dim : UTMDimension)
    (p : DataFrame) (h1 : a.df_anterior = some p) (h2 : p ≠ []) :
    ((∀ c : Option String,
        (∃ e ∈ compare_periods a dim, e.1 = c) ↔
          ((∃ m ∈ get_campaign_metrics a dim 1, m.name = c) ∨
            (∃ m ∈ get_campaign_metrics
                (mkMarketingAnalyzer p none a.demo_completed_statuses)
                dim 1, m.name = c))) ∧
      (∀ e ∈ compare_periods a dim,
        e.2.map (·.metric_name) =
          ["Total Leads", "Demos Realizadas", "% Desqualificação",
            "% Conversão", "% No-show", "Vendas"] ∧
        ((∀ m ∈ get_campaign_metrics a dim 1, m.name ≠ e.1) →
          ∀ comp ∈ e.2, comp.current_value = 0) ∧
        ((∀ m ∈ get_campaign_metrics
            (mkMarketingAnalyzer p none a.demo_completed_statuses) dim 1,
              m.name ≠ e.1) →
          ∀ comp ∈ e.2, comp.previous_value = 0))) ∧
    (∃ e ∈ compare_periods c8Analyzer .campaign, e.1 = some "b" ∧
      ∃ comp ∈ e.2, comp.metric_name = "Vendas" ∧
        comp.current_value = 0 ∧ comp.previous_value = 5 ∧
        comp.percentage_change = -100 ∧ comp.trend = "down") := by
  constructor
  · unfold compare_periods
    rw [h1]
    simp only [if_neg h2]
    constructor
    · intro c
      constructor
      · rintro ⟨e, he, hec⟩
        rcases List.mem_map.mp he with ⟨c', hc', rfl⟩
        have hcc : c' = c := hec
        subst hcc
        have hu := (mem_uniqueFirst c' _).mp hc'
        rcases List.mem_append.mp hu with hl | hr
        · rcases List.mem_map.mp hl with ⟨m, hm, hmn⟩
          exact Or.inl ⟨m, hm, hmn⟩
        · rcases List.mem_map.mp hr with ⟨m, hm, hmn⟩
          exact Or.inr ⟨m, hm, hmn⟩
      · intro hor
        have hmem : c ∈ uniqueFirst
            ((get_campaign_metrics a dim 1).map (·.name) ++
              (get_campaign_metrics
                (mkMarketingAnalyzer p none a.demo_completed_statuses)
                dim 1).map (·.name)) := by
          rw [mem_uniqueFirst]
          rcases hor with ⟨m, hm, hmn⟩ | ⟨m, hm, hmn⟩
          · exact List.mem_append.mpr
              (Or.inl (List.mem_map.mpr ⟨m, hm, hmn⟩))
          · exact List.mem_append.mpr
              (Or.inr (List.mem_map.mpr ⟨m, hm, hmn⟩))
        exact ⟨_, List.mem_map.mpr ⟨c, hmem, rfl⟩, rfl⟩
    · intro e he
      rcases List.mem_map.mp he with ⟨c', _, rfl⟩
      refine ⟨by simp [comparisonRow, metricsToCompare], ?_, ?_⟩
      · intro hnone comp hcomp
        have hfind : (get_campaign_metrics a dim 1).find?
            (fun m => decide (m.name = c')) = none :=
          List.find?_eq_none.mpr fun m hm => by
            simpa using hnone m hm
        rw [hfind] at hcomp
        rcases List.mem_map.mp hcomp with ⟨acc, _, rfl⟩
        rfl
      · intro hnone comp hcomp
        have hfind : (get_campaign_metrics
            (mkMarketingAnalyzer p none a.demo_completed_statuses)
              dim 1).find? (fun m => decide (m.name = c')) = none :=
          List.find?_eq_none.mpr fun m hm => by
            simpa using hnone m hm
        rw [hfind] at hcomp
        rcases List.mem_map.mp hcomp with ⟨acc, _, rfl⟩
        rfl
  · decide

unseal Rat.mul Rat.inv Rat.add Rat.sub in
/-- C8 witnessed on the scenario analyzer: the vanishing campaign `"b"`
gets its sales comparison with current 0, previous 5, −100% and trend
`"down"`. -/
theorem C8_compare_periods_witness :
    ∃ e ∈ compare_periods c8Analyzer .campaign, e.1 = some "b" ∧
      ∃ comp ∈ e.2, comp.metric_name = "Vendas" ∧
        comp.current_value = 0 ∧ comp.previous_value = 5 ∧
        comp.percentage_change = -100 ∧ comp.trend = "down" :=
  (C8_compare_periods c8Analyzer .campaign
    ((List.replicate 5 c8PrevLead).map Lead.normalizeUTM)
    (by decide) (by decide)).2

end Kommo
